import Mathlib

/-!
Verification of the iterative code-perfection pipeline of
`src/core/execution_loop.py` (class `AriaExecutionLoop`).

The Python code is shallowly embedded: every external effect (the `ast`
parser, the `black`/`autopep8` formatters, subprocess/Docker execution,
`pytest`, and the `aria_agent.chat` fixer capability) is an explicit
oracle parameter, and each method of the class becomes a Lean function of
the oracle outcomes that mirrors the method body statement by statement.
-/

namespace Aria

/-- A Python value as far as the loop inspects one: the
`isinstance(result, str)` / `result.get("response", code)` coercions used
on every `aria_agent.chat` result distinguish exactly strings, dict-like
values (modelled by their string-valued entries) and anything else
(modelled by `pyNone`, on which `.get` raises `AttributeError`). -/
inductive PyValue : Type
  | pyStr (s : String)
  | pyDict (entries : List (String × String))
  | pyNone
deriving DecidableEq

/-- Outcome of `ast.parse(code)` in the cases where `validate_syntax`
returns to its caller: success, or a `SyntaxError` carrying `lineno`,
`msg` and `text` — the class ordinary malformed input raises (null
bytes and over-deep bracket nesting included, on CPython 3.11, the
interpreter family this repository pins).  `ast.parse` can also raise
outside `SyntaxError` (see `AstParseOutcome` below), on which
`validate_syntax` does not return — the subject of claim C7; the loop
claims condition on gate outcomes and therefore use this
returning-outcome type. -/
inductive ParseOutcome : Type
  | ok
  | syntaxError (line : Option Int) (msg : String) (text : Option String)
deriving DecidableEq

/-- The error record built by `validate_syntax` from a `SyntaxError`:
`{"line": e.lineno, "message": str(e.msg), "text": e.text}`. -/
structure SyntaxErr : Type where
  line : Option Int
  message : String
  text : Option String
deriving DecidableEq

/-- Result dict of `validate_syntax`: `{"valid": bool, "errors": [...]}`
(`errors` is absent in the valid case; modelled as `[]`). -/
structure SyntaxCheck : Type where
  valid : Bool
  errors : List SyntaxErr
deriving DecidableEq

/-- `AriaExecutionLoop.validate_syntax` (lines 228-241) restricted to
the outcomes its `try`/`except SyntaxError` handles: a successful parse
reports valid, a `SyntaxError` is returned as the error record.
`validate_syntax_exc` below is the same method over the full parse
outcome, exception path included. -/
def validate_syntax : ParseOutcome → SyntaxCheck
  | .ok => ⟨true, []⟩
  | .syntaxError l m t => ⟨false, [⟨l, m, t⟩]⟩

/-- Full outcome of `ast.parse(code)` on a `str`: success, a
`SyntaxError`, or an exception of any other class.  The last case is
real on the repository's pinned CPython 3.11: a deeply nested unary
expression such as `"-" * 10000 + "0"` deterministically raises
`MemoryError` from the PEG parser's fixed stack-depth guard
(reproduced on CPython 3.11.6), and `except SyntaxError` does not
catch it. -/
inductive AstParseOutcome : Type
  | ok
  | syntaxError (line : Option Int) (msg : String) (text : Option String)
  | otherError (exc : String)
deriving DecidableEq

/-- Embedding of the returning outcomes into the full outcome type. -/
def AstParseOutcome.ofReturning : ParseOutcome → AstParseOutcome
  | .ok => .ok
  | .syntaxError l m t => .syntaxError l m t

/-- `AriaExecutionLoop.validate_syntax` (lines 228-241) over the full
parse outcome: `try: ast.parse(code)` with `except SyntaxError` — a
success or a `SyntaxError` returns the result dict, while an exception
of any other class propagates to the caller (`Except.error`). -/
def validate_syntax_exc : AstParseOutcome → Except String SyntaxCheck
  | .ok => .ok ⟨true, []⟩
  | .syntaxError l m t => .ok ⟨false, [⟨l, m, t⟩]⟩
  | .otherError e => .error e

/-- The input string `"-" * 10000 + "0"`: syntactically valid Python (a
chain of unary minuses applied to a literal), but deep enough to trip
the parser's stack-depth guard. -/
def deepUnaryMinusInput : String :=
  String.mk (List.replicate 10000 '-') ++ "0"

/-- The outcome of CPython 3.11 `ast.parse` on `deepUnaryMinusInput`:
it raises `MemoryError` — the PEG parser's fixed stack-depth guard, not
actual memory exhaustion — verified on CPython 3.11.6, the interpreter
family pinned throughout this repository. -/
def parseOutcomeOnDeepUnaryMinus : AstParseOutcome := .otherError "MemoryError"

/-- One entry of the `issues` list of `static_analysis`. -/
structure Issue : Type where
  type : String
  message : String
deriving DecidableEq

/-- `AriaExecutionLoop.static_analysis` (lines 243-269).  `blackFmt` and
`pep8Fix` are the `black.format_str` / `autopep8.fix_code` calls; each may
raise (`Except.error`), and each `try` block swallows the exception and
appends no issue.  An issue is appended exactly when the formatter
succeeds and returns text different from the input. -/
def static_analysis (blackFmt pep8Fix : String → Except Unit String)
    (code : String) : List Issue :=
  let formatting :=
    match blackFmt code with
    | .ok formatted => if formatted ≠ code then [⟨"formatting", "Code needs formatting"⟩] else []
    | .error _ => []
  let style :=
    match pep8Fix code with
    | .ok fixed => if fixed ≠ code then [⟨"style", "PEP8 style issues"⟩] else []
    | .error _ => []
  formatting ++ style

/-- One entry of the `vulnerabilities` list of `security_scan`. -/
structure Vulnerability : Type where
  pattern : String
  message : String
  severity : String
deriving DecidableEq

/-- The fixed denylist of `security_scan` (lines 439-447), in source
order. -/
def dangerous_patterns : List (String × String) :=
  [("exec(", "Use of exec is dangerous"),
   ("eval(", "Use of eval is dangerous"),
   ("__import__", "Dynamic imports can be dangerous"),
   ("os.system", "Direct system calls are dangerous"),
   ("subprocess.call(shell=True", "Shell injection vulnerability"),
   ("pickle.loads", "Pickle can execute arbitrary code"),
   ("yaml.load(", "Use yaml.safe_load instead")]

/-- Python's `pattern in code`: raw substring containment — the pattern's
character list is an infix of the code's character list. -/
def containsSub (code pat : String) : Bool :=
  decide (pat.data <:+: code.data)

/-- `AriaExecutionLoop.security_scan` (lines 434-457): one high-severity
vulnerability appended per denylist pattern occurring as a raw substring
of the code, in denylist order. -/
def security_scan (code : String) : List Vulnerability :=
  (dangerous_patterns.filter (fun pm => containsSub code pm.1)).map
    (fun pm => ⟨pm.1, pm.2, "high"⟩)

/-- Result dict of an execution backend.  `output`/`errors` are `Option`
because the Python dicts carry these keys only on some paths (the float
`"time"` key of the subprocess success path is not modelled; no claim
mentions it). -/
structure ExecResult : Type where
  success : Bool
  output : Option String
  errors : Option String
deriving DecidableEq

/-- Outcome of the `subprocess.run(["python", filepath], ...)` call in
`execute_in_subprocess`: normal completion, `subprocess.TimeoutExpired`,
or any other exception. -/
inductive SubprocOutcome : Type
  | completed (returncode : Int) (stdout stderr : String)
  | timedOut
  | raised (message : String)
deriving DecidableEq

/-- `AriaExecutionLoop.execute_in_subprocess` (lines 292-328). -/
def execute_in_subprocess : SubprocOutcome → ExecResult
  | .completed rc out err =>
      if rc = 0 then ⟨true, some out, none⟩
      else ⟨false, some out, some err⟩
  | .timedOut => ⟨false, none, some "Code execution timeout (infinite loop?)"⟩
  | .raised msg => ⟨false, none, some msg⟩

/-- Outcome of the container run in `execute_in_docker`: normal
completion with a status code and combined logs, or an exception.
`container.wait(timeout=10)` does not return on timeout — it raises a
read-timeout exception, so a timed-out run surfaces as `waitTimedOut`
with the exception's message. -/
inductive DockerOutcome : Type
  | completed (statusCode : Int) (logs : String)
  | waitTimedOut (excMessage : String)
  | raised (message : String)
deriving DecidableEq

/-- `AriaExecutionLoop.execute_in_docker` (lines 330-361): every
exception, the wait timeout included, is caught by the one generic
handler and reported as `"Docker execution failed: ..."`. -/
def execute_in_docker : DockerOutcome → ExecResult
  | .completed sc logs =>
      if sc = 0 then ⟨true, some logs, some ""⟩
      else ⟨false, some "", some logs⟩
  | .waitTimedOut m => ⟨false, none, some ("Docker execution failed: " ++ m)⟩
  | .raised m => ⟨false, none, some ("Docker execution failed: " ++ m)⟩

/-- Result dict of `run_tests`. -/
structure TestRes : Type where
  all_pass : Bool
  count : Nat
  failures : List String
deriving DecidableEq

/-- Outcome of the `pytest` subprocess call in `run_tests`: completion
with a return code and stdout, or any exception (caught by the generic
handler). -/
inductive PytestOutcome : Type
  | completed (returncode : Int) (stdout : String)
  | raised (message : String)
deriving DecidableEq

/-- The result-parsing tail of `run_tests` (lines 400-432): `all_pass`
iff return code 0; failures are the stdout lines containing `FAILED`
(collected only when not all passing); `count` is the number of stdout
lines whose lowercasing contains `passed`; an exception yields
`all_pass=False, count=0` with the exception text as the one failure. -/
def parse_pytest_output : PytestOutcome → TestRes
  | .completed rc stdout =>
      let all_pass := rc = 0
      let lines := stdout.splitOn "\n"
      let failures := if rc = 0 then [] else lines.filter (fun l => containsSub l "FAILED")
      ⟨all_pass, (lines.filter (fun l => containsSub l.toLower "passed")).length, failures⟩
  | .raised m => ⟨false, 0, [m]⟩

/-- `AriaExecutionLoop.run_tests` (lines 386-432), result semantics: an
empty tests text (`if not tests`) short-circuits to
`all_pass=True, count=0`; otherwise the pytest run on (code, tests) is
parsed.  The temporary-directory bookkeeping is modelled separately by
`run_tests_fs`. -/
def run_tests (pytest : String → String → PytestOutcome)
    (code tests : String) : TestRes :=
  if tests = "" then ⟨true, 0, []⟩
  else parse_pytest_output (pytest code tests)

/-! ### The fix helpers (external fixer capability)

Each `fix_*` method builds a prompt, awaits `aria_agent.chat(prompt)` and
coerces the result with
`result if isinstance(result, str) else result.get("response", code)`.
There is no `try`/`except` around the `chat` call: the coercion handles a
string and a dict-like value, while an exception raised by `chat` — or
the `AttributeError` raised by `.get` on any other value — propagates to
the caller.  The chat outcome is the explicit argument
`chat : Except String PyValue` (`Except.error` = the call raised). -/

/-- The shared result coercion
`result if isinstance(result, str) else result.get("response", code)`. -/
def chat_result_to_code (code : String) : PyValue → Except String String
  | .pyStr s => .ok s
  | .pyDict entries => .ok ((entries.lookup "response").getD code)
  | .pyNone => .error "AttributeError"

/-- `AriaExecutionLoop.fix_syntax` (lines 459-480).  The `errors`
argument mirrors the error records interpolated into the prompt; it does
not influence the returned content. -/
def fix_syntax (chat : Except String PyValue) (code : String)
    (errors : List SyntaxErr) : Except String String :=
  match errors, chat with
  | _, .error e => .error e
  | _, .ok r => chat_result_to_code code r

/-- `AriaExecutionLoop.fix_runtime_errors` (lines 482-500). -/
def fix_runtime_errors (chat : Except String PyValue) (code errors task : String) :
    Except String String :=
  match errors, task, chat with
  | _, _, .error e => .error e
  | _, _, .ok r => chat_result_to_code code r

/-- `AriaExecutionLoop.fix_test_failures` (lines 502-520). -/
def fix_test_failures (chat : Except String PyValue) (code : String)
    (failures : List String) : Except String String :=
  match failures, chat with
  | _, .error e => .error e
  | _, .ok r => chat_result_to_code code r

/-- `AriaExecutionLoop.fix_security_issues` (lines 522-542). -/
def fix_security_issues (chat : Except String PyValue) (code : String)
    (vulnerabilities : List Vulnerability) : Except String String :=
  match vulnerabilities, chat with
  | _, .error e => .error e
  | _, .ok r => chat_result_to_code code r

/-- `AriaExecutionLoop.fix_static_issues` (lines 544-554): despite taking
`aria_agent` and the issue list in the source, it ignores both — it
reformats locally, `code = black.format_str(code, ...)` then
`code = autopep8.fix_code(code)`, inside one `try` whose bare `except`
keeps whatever the local variable held when the exception hit. -/
def fix_static_issues (blackFmt pep8Fix : String → Except Unit String)
    (code : String) : String :=
  match blackFmt code with
  | .error _ => code
  | .ok blackFormatted =>
      match pep8Fix blackFormatted with
      | .error _ => blackFormatted
      | .ok pepFixed => pepFixed

/-! ### The perfection loop -/

/-- The environment of one `perfect_loop` run: the external oracles the
loop body consults.  The four `fix*Fn` fields are the net
content-to-content effect of the corresponding `fix_*` method on a run
where the chat call returns normally (the raising case is the subject of
claim C4 and is modelled by the `Except`-valued `fix_*` functions
above). -/
structure Env : Type where
  parse : String → ParseOutcome
  blackFmt : String → Except Unit String
  pep8Fix : String → Except Unit String
  dockerClient : Option (String → DockerOutcome)
  subprocRun : String → SubprocOutcome
  genTests : String → String → String
  pytest : String → String → PytestOutcome
  fixSyntaxFn : String → List SyntaxErr → String
  fixRuntimeFn : String → String → String → String
  fixTestsFn : String → List String → String
  fixSecurityFn : String → List Vulnerability → String

/-- `AriaExecutionLoop.execute_code` (lines 271-290), outcome semantics:
Docker sandbox when a docker client was obtained at startup, subprocess
fallback otherwise.  (The temp-file bookkeeping is modelled separately by
`execute_code_fs`.) -/
def execute_code (env : Env) (code : String) : ExecResult :=
  match env.dockerClient with
  | some dockerRun => execute_in_docker (dockerRun code)
  | none => execute_in_subprocess (env.subprocRun code)

/-- Outcome of one iteration of the `while` body of `perfect_loop`
(lines 147-206): either some gate failed and its fix produced `newCode`
(the body `continue`s), or all five gates passed with `testsPassed`
generated tests (the body returns the perfect record). -/
inductive StepOut : Type
  | fixed (newCode : String)
  | allPassed (testsPassed : Nat)
deriving DecidableEq

/-- One iteration of the `while` body of `perfect_loop` (lines 147-206):
the gates run in the fixed source order syntax → static analysis →
execution → tests → security; the first failing gate invokes exactly its
own fix on the current code and ends the iteration. -/
def iteration_step (env : Env) (task code : String) : StepOut :=
  let syntax_result := validate_syntax (env.parse code)
  if syntax_result.valid = false then
    .fixed (env.fixSyntaxFn code syntax_result.errors)
  else
    let static_result := static_analysis env.blackFmt env.pep8Fix code
    if static_result ≠ [] then
      .fixed (fix_static_issues env.blackFmt env.pep8Fix code)
    else
      let exec_result := execute_code env code
      if exec_result.success = false then
        .fixed (env.fixRuntimeFn code (exec_result.errors.getD "") task)
      else
        let tests := env.genTests code task
        let test_result := run_tests env.pytest code tests
        if test_result.all_pass = false then
          .fixed (env.fixTestsFn code test_result.failures)
        else
          let security_result := security_scan code
          if security_result ≠ [] then
            .fixed (env.fixSecurityFn code security_result)
          else
            .allPassed test_result.count

/-- Return value of `perfect_loop`: the perfect record (lines 210-218;
its constant `"security": "clean"` field and the float
`"execution_time"` are not modelled) or the best-effort record
(lines 221-226). -/
inductive LoopResult : Type
  | perfect (filename content : String) (iterations testsPassed : Nat)
  | best_effort (filename content : String) (iterations : Nat)
deriving DecidableEq

/-- The `iterations` field common to both result records. -/
def LoopResult.iterations : LoopResult → Nat
  | .perfect _ _ n _ => n
  | .best_effort _ _ n => n

/-- The content field common to both result records. -/
def LoopResult.content : LoopResult → String
  | .perfect _ c _ _ => c
  | .best_effort _ c _ => c

/-- The `while self.fix_attempts < self.max_fix_attempts` loop of
`perfect_loop` (lines 147-226), with the current code and the
`fix_attempts` counter as explicit state: a failing gate increments the
counter and re-enters the loop on the fixed code; all gates passing
returns the perfect record; a false loop condition falls through to the
best-effort record. -/
def perfect_loop_go (env : Env) (task filename : String) (max_fix_attempts : Nat)
    (code : String) (fix_attempts : Nat) : LoopResult :=
  if h : fix_attempts < max_fix_attempts then
    match iteration_step env task code with
    | .fixed newCode =>
        perfect_loop_go env task filename max_fix_attempts newCode (fix_attempts + 1)
    | .allPassed n => .perfect filename code fix_attempts n
  else
    .best_effort filename code fix_attempts
termination_by max_fix_attempts - fix_attempts
decreasing_by omega

/-- `AriaExecutionLoop.perfect_loop` (lines 138-226): starts on the
file's content with `self.fix_attempts = 0` (line 145).
`max_fix_attempts` is `self.max_fix_attempts`, set to 10 in `__init__`
(line 38). -/
def perfect_loop (env : Env) (task filename content : String)
    (max_fix_attempts : Nat) : LoopResult :=
  perfect_loop_go env task filename max_fix_attempts content 0

/-- The default iteration budget `self.max_fix_attempts = 10`
(line 38). -/
def default_max_fix_attempts : Nat := 10

/-- The code produced by the fix of the first failing gate, or the code
itself when every gate passes: the artifact transformation of one loop
iteration. -/
def applyFix (env : Env) (task code : String) : String :=
  match iteration_step env task code with
  | .fixed newCode => newCode
  | .allPassed _ => code

/-! ### Temporary filesystem state

The filesystem is modelled as the list of currently existing paths.
`execute_code` writes the code to a `NamedTemporaryFile(delete=False)`
and removes it in a `finally` with `Path(temp_path).unlink(missing_ok=True)`;
`run_tests` works inside a `tempfile.TemporaryDirectory()` context
manager that removes the directory tree on exit. -/

/-- ASCII whitespace as stripped by Python's `str.strip()`. -/
def isPyWhitespace (c : Char) : Bool :=
  c == ' ' || c == '\t' || c == '\n' || c == '\r' || c == '\x0b' || c == '\x0c'

/-- Python's `s.strip()`. -/
def pyStrip (s : String) : String :=
  String.mk (((s.data.dropWhile isPyWhitespace).reverse.dropWhile isPyWhitespace).reverse)

/-- Python's `s.startswith(p)`. -/
def pyStartsWith (s p : String) : Bool :=
  p.data.isPrefixOf s.data

/-- Python's `s.replace(old, new)` over character lists: replace
non-overlapping occurrences left to right.  The fuel argument (the input
length at the top call) only serves termination; each step consumes at
least one character. -/
def pyReplaceAux (pat rep : List Char) : Nat → List Char → List Char
  | 0, l => l
  | _ + 1, [] => []
  | fuel + 1, c :: rest =>
      if pat.isPrefixOf (c :: rest) then
        rep ++ pyReplaceAux pat rep fuel ((c :: rest).drop pat.length)
      else c :: pyReplaceAux pat rep fuel rest

/-- Python's `s.replace(old, new)` (for nonempty `old`; an empty `old`
is never passed by the verdict parser). -/
def pyReplace (s pat rep : String) : String :=
  if pat.data = [] then s
  else String.mk (pyReplaceAux pat.data rep.data s.data.length s.data)

/-- Split a character list at the first occurrence of `sep` (assumed
nonempty), returning the parts before and after it. -/
def splitOnceAux (sep : List Char) : List Char → Option (List Char × List Char)
  | [] => none
  | c :: rest =>
      if sep.isPrefixOf (c :: rest) then some ([], (c :: rest).drop sep.length)
      else
        match splitOnceAux sep rest with
        | some (pre, post) => some (c :: pre, post)
        | none => none

/-- Python's `s.split(sep, 1)`: at most one split, at the first
occurrence of the separator. -/
def split_once (s sep : String) : List String :=
  match splitOnceAux sep.data s.data with
  | some (pre, post) => [String.mk pre, String.mk post]
  | none => [s]

/-- Split a character list on a separator character (Python's
`s.split('\n')` semantics: an empty input yields one empty part). -/
def splitCharAux (sep : Char) : List Char → List (List Char)
  | [] => [[]]
  | c :: rest =>
      let r := splitCharAux sep rest
      if c == sep then [] :: r
      else
        match r with
        | h :: t => (c :: h) :: t
        | [] => [[c]]

/-- Python's `s.split('\n')`-style single-character split. -/
def pySplitChar (s : String) (sep : Char) : List String :=
  (splitCharAux sep s.data).map String.mk

/-- Digit-run accumulator for `int()`: `none` as soon as a non-digit
appears. -/
def digitsValAux (acc : Nat) : List Char → Option Nat
  | [] => some acc
  | c :: rest =>
      if c.isDigit then digitsValAux (10 * acc + (c.toNat - 48)) rest else none

/-- Python's `int(s)`: optional surrounding whitespace, an optional
sign, then a nonempty digit run; anything else raises, modelled as
`none`.  (Python additionally accepts underscore separators and
non-ASCII digits; the verdict grammar produces neither.) -/
def pyInt? (s : String) : Option Int :=
  match (pyStrip s).data with
  | [] => none
  | '-' :: rest =>
      match rest with
      | [] => none
      | _ => (digitsValAux 0 rest).map (fun n => -(n : Int))
  | '+' :: rest =>
      match rest with
      | [] => none
      | _ => (digitsValAux 0 rest).map (fun n => (n : Int))
  | l => (digitsValAux 0 l).map (fun n => (n : Int))

/-- The verdict-line decomposition shared by the `APPROVE:` and
`REJECT:` branches (lines 845-872):
`parts = line.replace(label, "").split("-", 1)`, the index is
`int(parts[0].strip())` — `none` when that raises, which the bare
`except: pass` swallows — and the reason is `parts[1].strip()` when a
`-` was present, else `"No reason"`. -/
def parse_verdict_line (label line : String) : Option (Int × String) :=
  let parts := split_once (pyReplace line label "") "-"
  let reason :=
    match parts with
    | _ :: r :: _ => pyStrip r
    | _ => "No reason"
  (pyInt? (parts.headD "")).map (fun idx => (idx, reason))

/-- Processing of one response line (lines 842-872): the line is
stripped; an `APPROVE:` line appends (suggestion, reason) to the
approved list and a `REJECT:` line to the rejected list, in both cases
only when the parsed index lies in `[0, len(suggestions))`; an
unparseable index (swallowed exception) or an out-of-range index leaves
both lists unchanged, as does any line with neither prefix. -/
def process_verdict_line {α : Type} (suggestions : List α)
    (st : List (α × String) × List (α × String)) (rawLine : String) :
    List (α × String) × List (α × String) :=
  let line := pyStrip rawLine
  if pyStartsWith line "APPROVE:" then
    match parse_verdict_line "APPROVE:" line with
    | some (idx, reason) =>
        if 0 ≤ idx ∧ idx < (suggestions.length : Int) then
          match suggestions.get? idx.toNat with
          | some s => (st.1 ++ [(s, reason)], st.2)
          | none => st
        else st
    | none => st
  else if pyStartsWith line "REJECT:" then
    match parse_verdict_line "REJECT:" line with
    | some (idx, reason) =>
        if 0 ≤ idx ∧ idx < (suggestions.length : Int) then
          match suggestions.get? idx.toNat with
          | some s => (st.1, st.2 ++ [(s, reason)])
          | none => st
        else st
    | none => st
  else st

/-- The decision record returned by
`aria_analyzes_trinity_suggestions`. -/
structure Decision (α : Type) : Type where
  implement_suggestions : Bool
  approved_suggestions : List (α × String)
  rejected_suggestions : List (α × String)
  reasoning : String

/-- The verdict-collection core of
`AriaExecutionLoop.aria_analyzes_trinity_suggestions` (lines 836-880),
taking the deciding capability's reply as input: a non-string reply
yields no lines (`aria_response.split('\n') if isinstance(aria_response,
str) else []`); each line is processed in order; the record reports
whether anything was approved, the two lists, and the summary
reasoning. -/
def aria_analyzes_trinity_suggestions {α : Type} (suggestions : List α)
    (aria_response : PyValue) : Decision α :=
  let lines :=
    match aria_response with
    | .pyStr s => pySplitChar s '\n'
    | _ => []
  let lists := lines.foldl (process_verdict_line suggestions) ([], [])
  ⟨decide (0 < lists.1.length), lists.1, lists.2,
    "Approved " ++ toString lists.1.length ++ ", " ++
      "Rejected " ++ toString lists.2.length⟩

/-- Modelled from the spec: the FixRequester invocation that §4.5 step 2
prescribes for a failing static-analysis gate — "Static-analysis gate
fails → FixRequester(style/format issues) → restart at gate 1" — i.e.
the revised artifact is obtained from the external fixer capability
applied to the artifact and the style/format issue list.  Stated for
comparison with the source's `fix_static_issues`, which the code
actually calls there. -/
def request_fix_static (fixer : String → List Issue → String)
    (code : String) (issues : List Issue) : String :=
  fixer code issues

/-! ### Concrete environments used to instantiate the theorems -/

/-- An environment whose parser rejects every artifact and whose syntax
fixer returns the code unchanged: every iteration fails at the syntax
gate. -/
def envAllFail : Env where
  parse := fun _ => .syntaxError (some 1) "invalid syntax" none
  blackFmt := fun c => .ok c
  pep8Fix := fun c => .ok c
  dockerClient := none
  subprocRun := fun _ => .completed 0 "" ""
  genTests := fun _ _ => ""
  pytest := fun _ _ => .completed 0 ""
  fixSyntaxFn := fun c _ => c
  fixRuntimeFn := fun c _ _ => c
  fixTestsFn := fun c _ => c
  fixSecurityFn := fun c _ => c

/-- `envAllFail` with every oracle after the syntax gate replaced by a
different behaviour (the formatters raise, execution times out, pytest
fails, the later fixers rewrite the code), but the same parser and the
same syntax fixer. -/
def envAllFail2 : Env where
  parse := fun _ => .syntaxError (some 1) "invalid syntax" none
  blackFmt := fun _ => .error ()
  pep8Fix := fun _ => .error ()
  dockerClient := some (fun _ => .waitTimedOut "Read timed out.")
  subprocRun := fun _ => .timedOut
  genTests := fun _ _ => "import pytest"
  pytest := fun _ _ => .completed 1 "FAILED test_module.py::test_a"
  fixSyntaxFn := fun c _ => c
  fixRuntimeFn := fun _ _ _ => "rewritten"
  fixTestsFn := fun _ _ => "rewritten"
  fixSecurityFn := fun _ _ => "rewritten"

/-- An environment in which every gate passes at the first attempt. -/
def envAllPass : Env where
  parse := fun _ => .ok
  blackFmt := fun c => .ok c
  pep8Fix := fun c => .ok c
  dockerClient := none
  subprocRun := fun _ => .completed 0 "ok" ""
  genTests := fun _ _ => ""
  pytest := fun _ _ => .completed 0 ""
  fixSyntaxFn := fun c _ => c
  fixRuntimeFn := fun c _ _ => c
  fixTestsFn := fun c _ => c
  fixSecurityFn := fun c _ => c

/-- An environment whose black formatter always appends a newline, so
the static-analysis gate reports a formatting issue on any code not
already ending that way, while all other gates pass. -/
def envStaticFail : Env where
  parse := fun _ => .ok
  blackFmt := fun c => .ok (c ++ "\n")
  pep8Fix := fun c => .ok c
  dockerClient := none
  subprocRun := fun _ => .completed 0 "" ""
  genTests := fun _ _ => ""
  pytest := fun _ _ => .completed 0 ""
  fixSyntaxFn := fun c _ => c
  fixRuntimeFn := fun c _ _ => c
  fixTestsFn := fun c _ => c
  fixSecurityFn := fun c _ => c

/-- A black-formatter behaviour that reformats by appending a newline. -/
def blackAddNewline : String → Except Unit String := fun c => .ok (c ++ "\n")

/-- An autopep8 behaviour that returns the code unchanged. -/
def pep8Identity : String → Except Unit String := fun c => .ok c

/-- A hypothetical external fixer capability whose output is
recognisable. -/
def externalFixerStub : String → List Issue → String :=
  fun _ _ => "FIXED BY EXTERNAL CAPABILITY"

/-! ## Helper lemmas -/

/-- Unfolding equation of the loop. -/
theorem perfect_loop_go_eq (env : Env) (task filename : String)
    (max : Nat) (code : String) (att : Nat) :
    perfect_loop_go env task filename max code att =
      if att < max then
        match iteration_step env task code with
        | .fixed newCode => perfect_loop_go env task filename max newCode (att + 1)
        | .allPassed n => .perfect filename code att n
      else .best_effort filename code att := by
  rw [perfect_loop_go]; split <;> rfl

/-- A failing syntax gate short-circuits the iteration to the syntax
fix. -/
theorem iteration_step_syntax_fail (env : Env) (task code : String)
    (hv : ( validate_syntax (env.parse code)).valid = false) :
    iteration_step env task code =
      .fixed (env.fixSyntaxFn code ( validate_syntax (env.parse code)).errors) := by
  unfold iteration_step
  simp [hv]

/-- With syntax passing, a failing static-analysis gate short-circuits
the iteration to the local reformat. -/
theorem iteration_step_static_fail (env : Env) (task code : String)
    (hv : ( validate_syntax (env.parse code)).valid = true)
    (hs : static_analysis env.blackFmt env.pep8Fix code ≠ []) :
    iteration_step env task code =
      .fixed (fix_static_issues env.blackFmt env.pep8Fix code) := by
  unfold iteration_step
  simp [hv, hs]

/-- With syntax and static analysis passing, a failing execution gate
short-circuits the iteration to the runtime fix. -/
theorem iteration_step_exec_fail (env : Env) (task code : String)
    (hv : ( validate_syntax (env.parse code)).valid = true)
    (hs : static_analysis env.blackFmt env.pep8Fix code = [])
    (he : (execute_code env code).success = false) :
    iteration_step env task code =
      .fixed (env.fixRuntimeFn code ((execute_code env code).errors.getD "") task) := by
  unfold iteration_step
  simp [hv, hs, he]

/-- With syntax, static analysis and execution passing, a failing test
gate short-circuits the iteration to the test fix. -/
theorem iteration_step_tests_fail (env : Env) (task code : String)
    (hv : ( validate_syntax (env.parse code)).valid = true)
    (hs : static_analysis env.blackFmt env.pep8Fix code = [])
    (he : (execute_code env code).success = true)
    (ht : (run_tests env.pytest code (env.genTests code task)).all_pass = false) :
    iteration_step env task code =
      .fixed (env.fixTestsFn code
        (run_tests env.pytest code (env.genTests code task)).failures) := by
  unfold iteration_step
  simp [hv, hs, he, ht]

/-- With the four earlier gates passing, a failing security gate ends
the iteration with the security fix. -/
theorem iteration_step_security_fail (env : Env) (task code : String)
    (hv : ( validate_syntax (env.parse code)).valid = true)
    (hs : static_analysis env.blackFmt env.pep8Fix code = [])
    (he : (execute_code env code).success = true)
    (ht : (run_tests env.pytest code (env.genTests code task)).all_pass = true)
    (hc : security_scan code ≠ []) :
    iteration_step env task code = .fixed (env.fixSecurityFn code (security_scan code)) := by
  unfold iteration_step
  simp [hv, hs, he, ht, hc]

/-- All five gates passing ends the iteration with the perfect
outcome. -/
theorem iteration_step_all_pass (env : Env) (task code : String)
    (hv : ( validate_syntax (env.parse code)).valid = true)
    (hs : static_analysis env.blackFmt env.pep8Fix code = [])
    (he : (execute_code env code).success = true)
    (ht : (run_tests env.pytest code (env.genTests code task)).all_pass = true)
    (hc : security_scan code = []) :
    iteration_step env task code =
      .allPassed (run_tests env.pytest code (env.genTests code task)).count := by
  unfold iteration_step
  simp [hv, hs, he, ht, hc]

/-- The iteration counter in the loop result never exceeds the budget
when the counter starts no higher than the budget. -/
theorem perfect_loop_go_iterations_le (env : Env) (task filename : String)
    (max : Nat) :
    ∀ fuel code att, att ≤ max → max - att ≤ fuel →
      (perfect_loop_go env task filename max code att).iterations ≤ max := by
  intro fuel
  induction fuel with
  | zero =>
      intro code att h1 h2
      rw [perfect_loop_go_eq]
      have : ¬ att < max := by omega
      simpa [this, LoopResult.iterations] using h1
  | succ fuel ih =>
      intro code att h1 h2
      rw [perfect_loop_go_eq]
      by_cases h : att < max
      · simp only [h, if_true]
        cases hstep : iteration_step env task code with
        | fixed newCode => exact ih newCode (att + 1) (by omega) (by omega)
        | allPassed n => simpa [LoopResult.iterations] using h1
      · simp [h, LoopResult.iterations, h1]

/-- When every iteration fails some gate, the loop runs the counter to
the budget, folding the per-iteration fixes over the artifact, and
returns best effort. -/
theorem perfect_loop_go_all_fail (env : Env) (task filename : String) (max : Nat)
    (hall : ∀ c, ∃ c2, iteration_step env task c = .fixed c2) :
    ∀ fuel code att, att ≤ max → max - att ≤ fuel →
      perfect_loop_go env task filename max code att =
        .best_effort filename ((applyFix env task)^[max - att] code) max := by
  intro fuel
  induction fuel with
  | zero =>
      intro code att h1 h2
      have hm : att = max := by omega
      rw [perfect_loop_go_eq]
      simp [hm, Function.iterate_zero]
  | succ fuel ih =>
      intro code att h1 h2
      rw [perfect_loop_go_eq]
      by_cases h : att < max
      · simp only [h, if_true]
        obtain ⟨c2, hstep⟩ := hall code
        rw [hstep]
        show perfect_loop_go env task filename max c2 (att + 1) =
          LoopResult.best_effort filename ((applyFix env task)^[max - att] code) max
        have happ : applyFix env task code = c2 := by
          unfold applyFix; rw [hstep]
        have hiter : (applyFix env task)^[max - att] code =
            (applyFix env task)^[max - (att + 1)] (applyFix env task code) := by
          have : max - att = (max - (att + 1)) + 1 := by omega
          rw [this, Function.iterate_succ_apply]
        rw [ih c2 (att + 1) (by omega) (by omega), hiter, happ]
      · have hm : att = max := by omega
        simp [h, hm, Function.iterate_zero]

/-! ## Claims -/

/-- C1: for every artifact and every fixer behaviour, the refinement
loop performs at most `max_fix_attempts` fix iterations; and when every
gate fails on every iteration, it terminates after exactly
`max_fix_attempts` iterations with status best-effort carrying the last
artifact (the fold of the per-iteration fixes), never raising an error
for non-convergence (`perfect_loop` is a total function). -/
theorem C1_loop_bounded_best_effort (env : Env) (task filename code : String)
    (max : Nat) :
    (perfect_loop env task filename code max).iterations ≤ max ∧
    ((∀ c, ∃ c2, iteration_step env task c = .fixed c2) →
      perfect_loop env task filename code max =
        .best_effort filename ((applyFix env task)^[max] code) max) := by
  constructor
  · exact perfect_loop_go_iterations_le env task filename max max code 0
      (by omega) (by omega)
  · intro hall
    have h := perfect_loop_go_all_fail env task filename max hall max code 0
      (by omega) (by omega)
    simpa [perfect_loop] using h

/-- C1 witness: with the parser rejecting everything and the default
budget 10, the loop stops at exactly 10 iterations with best effort. -/
theorem C1_witness :
    (perfect_loop envAllFail "task" "f.py" "def f(" 10).iterations ≤ 10 ∧
    perfect_loop envAllFail "task" "f.py" "def f(" 10 =
      .best_effort "f.py" ((applyFix envAllFail "task")^[10] "def f(") 10 := by
  refine ⟨(C1_loop_bounded_best_effort envAllFail "task" "f.py" "def f(" 10).1,
    (C1_loop_bounded_best_effort envAllFail "task" "f.py" "def f(" 10).2 ?_⟩
  intro c
  exact ⟨c, rfl⟩

/-- C2: an artifact that passes the syntax gate, the static-analysis
gate, the execution gate, the test gate and the security gate on the
first attempt makes the loop return status perfect with iteration count
0 — no fix is ever issued (the single iteration ends in `allPassed`). -/
theorem C2_first_attempt_perfect (env : Env) (task filename code : String)
    (max : Nat)
    (h1 : ( validate_syntax (env.parse code)).valid = true)
    (h2 : static_analysis env.blackFmt env.pep8Fix code = [])
    (h3 : (execute_code env code).success = true)
    (h4 : (run_tests env.pytest code (env.genTests code task)).all_pass = true)
    (h5 : security_scan code = [])
    (h6 : 0 < max) :
    iteration_step env task code =
      .allPassed (run_tests env.pytest code (env.genTests code task)).count ∧
    perfect_loop env task filename code max =
      .perfect filename code 0 (run_tests env.pytest code (env.genTests code task)).count := by
  have hstep := iteration_step_all_pass env task code h1 h2 h3 h4 h5
  refine ⟨hstep, ?_⟩
  unfold perfect_loop
  rw [perfect_loop_go_eq]
  simp [h6, hstep]

/-- C2 witness: in `envAllPass` the artifact `"x = 1"` (clean of every
denylist pattern) comes back perfect with iteration count 0. -/
theorem C2_witness :
    perfect_loop envAllPass "task" "f.py" "x = 1" 10 =
      .perfect "f.py" "x = 1" 0 0 := by
  have h := (C2_first_attempt_perfect envAllPass "task" "f.py" "x = 1" 10
    rfl rfl rfl rfl (by decide) (by decide)).2
  simpa [run_tests, envAllPass] using h

/-- C3: within each iteration the gates run in the fixed order syntax →
static analysis → execution → tests → security; the first failing gate
triggers exactly the fix for its own failure class and the loop
re-enters at the syntax gate with the counter incremented (the recursive
occurrence is the same `perfect_loop_go`, whose first gate is syntax);
and, with the syntax gate failing, the iteration outcome is unchanged
under arbitrary replacement of every oracle behind the later gates
(`env2` need only agree on the parser and the syntax fixer) — the later
gates are skipped. -/
theorem C3_gate_order_short_circuit (env env2 : Env)
    (task filename code : String) (att max : Nat) (h : att < max) :
    (( validate_syntax (env.parse code)).valid = false →
      perfect_loop_go env task filename max code att =
        perfect_loop_go env task filename max
          (env.fixSyntaxFn code ( validate_syntax (env.parse code)).errors) (att + 1)) ∧
    (( validate_syntax (env.parse code)).valid = true →
      static_analysis env.blackFmt env.pep8Fix code ≠ [] →
      perfect_loop_go env task filename max code att =
        perfect_loop_go env task filename max
          (fix_static_issues env.blackFmt env.pep8Fix code) (att + 1)) ∧
    (( validate_syntax (env.parse code)).valid = true →
      static_analysis env.blackFmt env.pep8Fix code = [] →
      (execute_code env code).success = false →
      perfect_loop_go env task filename max code att =
        perfect_loop_go env task filename max
          (env.fixRuntimeFn code ((execute_code env code).errors.getD "") task) (att + 1)) ∧
    (( validate_syntax (env.parse code)).valid = true →
      static_analysis env.blackFmt env.pep8Fix code = [] →
      (execute_code env code).success = true →
      (run_tests env.pytest code (env.genTests code task)).all_pass = false →
      perfect_loop_go env task filename max code att =
        perfect_loop_go env task filename max
          (env.fixTestsFn code
            (run_tests env.pytest code (env.genTests code task)).failures) (att + 1)) ∧
    (( validate_syntax (env.parse code)).valid = true →
      static_analysis env.blackFmt env.pep8Fix code = [] →
      (execute_code env code).success = true →
      (run_tests env.pytest code (env.genTests code task)).all_pass = true →
      security_scan code ≠ [] →
      perfect_loop_go env task filename max code att =
        perfect_loop_go env task filename max
          (env.fixSecurityFn code (security_scan code)) (att + 1)) ∧
    (env2.parse = env.parse → env2.fixSyntaxFn = env.fixSyntaxFn →
      ( validate_syntax (env.parse code)).valid = false →
      iteration_step env2 task code = iteration_step env task code) := by
  refine ⟨?_, ?_, ?_, ?_, ?_, ?_⟩
  · intro hv
    rw [perfect_loop_go_eq, iteration_step_syntax_fail env task code hv]
    simp [h]
  · intro hv hs
    rw [perfect_loop_go_eq, iteration_step_static_fail env task code hv hs]
    simp [h]
  · intro hv hs he
    rw [perfect_loop_go_eq, iteration_step_exec_fail env task code hv hs he]
    simp [h]
  · intro hv hs he ht
    rw [perfect_loop_go_eq, iteration_step_tests_fail env task code hv hs he ht]
    simp [h]
  · intro hv hs he ht hc
    rw [perfect_loop_go_eq, iteration_step_security_fail env task code hv hs he ht hc]
    simp [h]
  · intro hp hf hv
    have hv2 : ( validate_syntax (env2.parse code)).valid = false := by
      rw [hp]; exact hv
    rw [iteration_step_syntax_fail env2 task code hv2,
      iteration_step_syntax_fail env task code hv, hp, hf]

/-- C3 witness: in `envAllFail` the syntax gate fails and one iteration
re-enters the loop at counter 1 with the (identically) fixed code; and
`envAllFail2`, which differs from `envAllFail` in every oracle after the
syntax gate, produces the same iteration outcome. -/
theorem C3_witness :
    perfect_loop_go envAllFail "task" "f.py" 10 "def f(" 0 =
      perfect_loop_go envAllFail "task" "f.py" 10 "def f(" 1 ∧
    iteration_step envAllFail2 "task" "def f(" =
      iteration_step envAllFail "task" "def f(" := by
  constructor
  · exact (C3_gate_order_short_circuit envAllFail envAllFail2 "task" "f.py"
      "def f(" 0 10 (by decide)).1 rfl
  · exact (C3_gate_order_short_circuit envAllFail envAllFail2 "task" "f.py"
      "def f(" 0 10 (by decide)).2.2.2.2.2 rfl rfl rfl

/-- C4 counterexample: when the external fixer capability raises (here a
timeout), `fix_syntax` does not return the previous artifact unchanged —
the exception propagates uncaught out of the fix request.  The same
shape holds for the other three chat-backed fixers. -/
theorem C4_counterexample :
    fix_syntax (Except.error "TimeoutError") "x = 1" [] ≠ Except.ok "x = 1" ∧
    fix_syntax (Except.error "TimeoutError") "x = 1" [] =
      Except.error "TimeoutError" ∧
    fix_runtime_errors (Except.error "TimeoutError") "x = 1" "boom" "task" =
      Except.error "TimeoutError" ∧
    fix_test_failures (Except.error "TimeoutError") "x = 1" [] =
      Except.error "TimeoutError" ∧
    fix_security_issues (Except.error "TimeoutError") "x = 1" [] =
      Except.error "TimeoutError" := by
  refine ⟨by simp [ fix_syntax], rfl, rfl, rfl, rfl⟩

/-- C4 as amended: the fixers handle only malformed *returned* output —
a dict-like chat result falls back to the previous artifact content when
it has no `response` entry (and is replaced by that entry when present);
an exception raised by the chat call propagates uncaught out of every
fix request, and a chat result that is neither a string nor a dict
raises `AttributeError`, rather than returning the previous artifact and
consuming an iteration. -/
theorem C4_amended (code task e r : String) (errs : List SyntaxErr)
    (fails : List String) (vulns : List Vulnerability) :
    ( fix_syntax (.ok (.pyDict [])) code errs = .ok code ∧
      fix_syntax (.ok (.pyDict [("response", r)])) code errs = .ok r ∧
      fix_syntax (.error e) code errs = .error e ∧
      fix_syntax (.ok .pyNone) code errs = .error "AttributeError") ∧
    ( fix_runtime_errors (.ok (.pyDict [])) code "stderr" task = .ok code ∧
      fix_runtime_errors (.error e) code "stderr" task = .error e ∧
      fix_runtime_errors (.ok .pyNone) code "stderr" task = .error "AttributeError") ∧
    ( fix_test_failures (.ok (.pyDict [])) code fails = .ok code ∧
      fix_test_failures (.error e) code fails = .error e ∧
      fix_test_failures (.ok .pyNone) code fails = .error "AttributeError") ∧
    ( fix_security_issues (.ok (.pyDict [])) code vulns = .ok code ∧
      fix_security_issues (.error e) code vulns = .error e ∧
      fix_security_issues (.ok .pyNone) code vulns = .error "AttributeError") := by
  refine ⟨⟨rfl, ?_, rfl, rfl⟩, ⟨rfl, rfl, rfl⟩, ⟨rfl, rfl, rfl⟩, ⟨rfl, rfl, rfl⟩⟩
  simp [ fix_syntax, chat_result_to_code, List.lookup]

/-- C5 counterexample: on a failing static-analysis gate the code calls
`fix_static_issues`, which is local black/autopep8 reformatting — with a
black behaviour that appends a newline the revised artifact is the
reformatted text, not the output of the external fixer capability on the
style/format issue list that the spec prescribes
(`request_fix_static`). -/
theorem C5_counterexample :
    fix_static_issues blackAddNewline pep8Identity "x=1" = "x=1\n" ∧
    request_fix_static externalFixerStub "x=1"
      [⟨"formatting", "Code needs formatting"⟩] = "FIXED BY EXTERNAL CAPABILITY" ∧
    fix_static_issues blackAddNewline pep8Identity "x=1" ≠
      request_fix_static externalFixerStub "x=1"
        [⟨"formatting", "Code needs formatting"⟩] := by
  refine ⟨rfl, rfl, by decide⟩

/-- C5 as amended: whenever the static-analysis gate fails, the loop
revises the artifact with `fix_static_issues` — a local reformat,
black then autopep8, that ignores the external fixer capability and the
issue list — and restarts at gate 1 with the counter incremented. -/
theorem C5_amended_static_fix_is_local (env : Env)
    (task filename code : String) (att max : Nat) (h : att < max)
    (hv : ( validate_syntax (env.parse code)).valid = true)
    (hs : static_analysis env.blackFmt env.pep8Fix code ≠ []) :
    perfect_loop_go env task filename max code att =
      perfect_loop_go env task filename max
        (fix_static_issues env.blackFmt env.pep8Fix code) (att + 1) := by
  rw [perfect_loop_go_eq, iteration_step_static_fail env task code hv hs]
  simp [h]

/-- C5 witness: in `envStaticFail` (black appends a newline) the static
gate fails on `"x=1"` and the loop continues on the locally reformatted
`"x=1\n"` at counter 1. -/
theorem C5_witness :
    perfect_loop_go envStaticFail "task" "f.py" 10 "x=1" 0 =
      perfect_loop_go envStaticFail "task" "f.py" 10 "x=1\n" 1 := by
  have h := C5_amended_static_fix_is_local envStaticFail "task" "f.py" "x=1"
    0 10 (by decide) rfl (by decide)
  simpa [fix_static_issues, envStaticFail] using h

/-- C6 counterexample: a timed-out execution is classified as
`"Code execution timeout (infinite loop?)"` by the subprocess backend
but as the generic `"Docker execution failed: ..."` by the Docker
backend (whose `container.wait(timeout=10)` raises into the generic
handler), so the two backends do not share the "infinite loop suspected"
timeout classification. -/
theorem C6_counterexample :
    execute_in_subprocess .timedOut =
      ⟨false, none, some "Code execution timeout (infinite loop?)"⟩ ∧
    execute_in_docker (.waitTimedOut "Read timed out.") =
      ⟨false, none, some "Docker execution failed: Read timed out."⟩ ∧
    (execute_in_docker (.waitTimedOut "Read timed out.")).errors ≠
      (execute_in_subprocess .timedOut).errors ∧
    containsSub
      ((execute_in_docker (.waitTimedOut "Read timed out.")).errors.getD "")
      "infinite loop" = false := by
  refine ⟨rfl, rfl, by decide, by decide⟩

/-- C6 as amended: a timeout is a failure on both backends, but only the
subprocess backend carries the specific "infinite loop?" classification;
the Docker backend reports any timeout as a generic
`"Docker execution failed: ..."` error. -/
theorem C6_amended_timeout_classification (m : String) :
    execute_in_subprocess .timedOut =
      ⟨false, none, some "Code execution timeout (infinite loop?)"⟩ ∧
    execute_in_docker (.waitTimedOut m) =
      ⟨false, none, some ("Docker execution failed: " ++ m)⟩ ∧
    (execute_in_subprocess .timedOut).success = false ∧
    (execute_in_docker (.waitTimedOut m)).success = false := by
  exact ⟨rfl, rfl, rfl, rfl⟩

/-- C7 counterexample: the claim "for every input string the validators
never raise" fails at the input `deepUnaryMinusInput`
(`"-" * 10000 + "0"`): on the repository's pinned CPython 3.11,
`ast.parse` raises `MemoryError` there (`parseOutcomeOnDeepUnaryMinus`),
which `except SyntaxError` does not catch, so `validate_syntax` raises
to its caller instead of returning an issue result. -/
theorem C7_counterexample :
    validate_syntax_exc parseOutcomeOnDeepUnaryMinus =
      Except.error "MemoryError" ∧
    validate_syntax_exc parseOutcomeOnDeepUnaryMinus ≠
      Except.ok ⟨false, [⟨none, "MemoryError", none⟩]⟩ := by
  exact ⟨rfl, by simp [validate_syntax_exc, parseOutcomeOnDeepUnaryMinus]⟩

/-- C7 as amended: the validators never raise when the parser's failure
is a `SyntaxError` — the class ordinary malformed input produces — and
such a failure is reported as an issue result carrying (line, message,
text); the loop-level `validate_syntax` agrees with the full model on
every returning outcome; `static_analysis` swallows formatter exceptions
(no issue from a raising tool) and only ever emits its two canonical
issues; `security_scan` only ever emits high-severity records.  But an
exception of any other class from the parser (e.g. `MemoryError` on a
deeply nested unary expression) propagates out of `validate_syntax`
uncaught. -/
theorem C7_amended_syntax_error_only (l : Option Int) (m : String)
    (t : Option String) :
    validate_syntax_exc .ok = .ok ⟨true, []⟩ ∧
    validate_syntax_exc (.syntaxError l m t) = .ok ⟨false, [⟨l, m, t⟩]⟩ ∧
    (∀ po : ParseOutcome, validate_syntax_exc (.ofReturning po) =
      .ok ( validate_syntax po)) ∧
    (∀ e, validate_syntax_exc (.otherError e) = .error e) ∧
    (∀ code, static_analysis (fun _ => .error ()) (fun _ => .error ()) code = []) ∧
    (∀ blackFmt pep8Fix code,
      (static_analysis blackFmt pep8Fix code).all
        (fun i => i == ⟨"formatting", "Code needs formatting"⟩ ||
          i == ⟨"style", "PEP8 style issues"⟩) = true) ∧
    (∀ code, (security_scan code).all (fun v => v.severity == "high") = true) := by
  refine ⟨rfl, rfl, ?_, fun e => rfl, fun code => rfl, ?_, ?_⟩
  · intro po
    cases po <;> rfl
  · intro blackFmt pep8Fix code
    unfold static_analysis
    cases hb : blackFmt code <;> cases hp : pep8Fix code <;>
      simp <;> split_ifs <;> simp
  · intro code
    rw [List.all_eq_true]
    intro v hv
    obtain ⟨pm, hpm, hveq⟩ := List.mem_map.mp hv
    rw [← hveq]
    rfl

/-- C9: an `APPROVE:`/`REJECT:` verdict line whose index is unparseable
(`int()` raising is swallowed) or outside `[0, len(suggestions))`
contributes to neither the approved nor the rejected list — the state
is returned unchanged (and the parser is a total function: it cannot
raise). -/
theorem C9_invalid_verdict_index_ignored {α : Type} (suggestions : List α)
    (st : List (α × String) × List (α × String)) (line : String) :
    (pyStartsWith (pyStrip line) "APPROVE:" = true →
      Option.all
        (fun p => !(decide (0 ≤ p.1 ∧ p.1 < (suggestions.length : Int))))
        (parse_verdict_line "APPROVE:" (pyStrip line)) = true →
      process_verdict_line suggestions st line = st) ∧
    (pyStartsWith (pyStrip line) "APPROVE:" = false →
      pyStartsWith (pyStrip line) "REJECT:" = true →
      Option.all
        (fun p => !(decide (0 ≤ p.1 ∧ p.1 < (suggestions.length : Int))))
        (parse_verdict_line "REJECT:" (pyStrip line)) = true →
      process_verdict_line suggestions st line = st) := by
  constructor
  · intro hstart hrange
    simp only [process_verdict_line]
    rw [hstart]
    simp only [if_true]
    cases hp : parse_verdict_line "APPROVE:" (pyStrip line) with
    | none => rfl
    | some p =>
        obtain ⟨idx, reason⟩ := p
        rw [hp] at hrange
        simp [Option.all] at hrange
        exact if_neg (by omega)
  · intro hnota hstart hrange
    simp only [process_verdict_line]
    rw [hnota, hstart]
    simp only [Bool.false_eq_true, if_false, if_true]
    cases hp : parse_verdict_line "REJECT:" (pyStrip line) with
    | none => rfl
    | some p =>
        obtain ⟨idx, reason⟩ := p
        rw [hp] at hrange
        simp [Option.all] at hrange
        exact if_neg (by omega)

/-- C9 witness: with one suggestion, the verdict `"APPROVE: 5 - great"`
(index out of range) leaves both lists empty; so does
`"APPROVE: x - great"` (unparseable index), by the same theorem at that
input. -/
theorem C9_witness :
    process_verdict_line ["s0"]
      (([], []) : List (String × String) × List (String × String))
      "APPROVE: 5 - great" = ([], []) ∧
    process_verdict_line ["s0"]
      (([], []) : List (String × String) × List (String × String))
      "APPROVE: x - great" = ([], []) := by
  exact ⟨(C9_invalid_verdict_index_ignored ["s0"] ([], []) "APPROVE: 5 - great").1
      (by decide) (by decide),
    (C9_invalid_verdict_index_ignored ["s0"] ([], []) "APPROVE: x - great").1
      (by decide) (by decide)⟩

/-- C10: the security scan flags a denylist pattern exactly when it
occurs as a raw substring of the text — context-free, so occurrences
inside comments, string literals or longer identifiers count: the
artifact `"x = retrieval(query)"` (which calls no eval) is flagged for
`"eval("`; every reported vulnerability has severity high; and a
flagged artifact can never end an iteration with all gates passed. -/
theorem C10_security_scan_raw_substring (env : Env) (task code p m : String)
    (n : Nat)
    (hmem : (p, m) ∈ dangerous_patterns) :
    ((⟨p, m, "high"⟩ : Vulnerability) ∈ security_scan code ↔
      containsSub code p = true) ∧
    security_scan "x = retrieval(query)" =
      [⟨"eval(", "Use of eval is dangerous", "high"⟩] ∧
    (iteration_step env task code = .allPassed n → security_scan code = []) := by
  refine ⟨?_, by decide, ?_⟩
  · constructor
    · intro hv
      obtain ⟨pm, hpm, hveq⟩ := List.mem_map.mp hv
      obtain ⟨_, hc⟩ := List.mem_filter.mp hpm
      have : pm.1 = p := congrArg Vulnerability.pattern hveq
      rw [← this]
      exact hc
    · intro hc
      exact List.mem_map.mpr ⟨(p, m),
        List.mem_filter.mpr ⟨hmem, hc⟩, rfl⟩
  · intro hstep
    simp only [iteration_step] at hstep
    split at hstep
    · exact absurd hstep (by simp)
    · split at hstep
      · exact absurd hstep (by simp)
      · split at hstep
        · exact absurd hstep (by simp)
        · split at hstep
          · exact absurd hstep (by simp)
          · split at hstep
            · exact absurd hstep (by simp)
            · simp_all

/-- C10 witness: `"eval("` is in the denylist, `"x = retrieval(query)"`
contains it as a raw substring, and the scan flags it. -/
theorem C10_witness :
    (⟨"eval(", "Use of eval is dangerous", "high"⟩ : Vulnerability) ∈
      security_scan "x = retrieval(query)" :=
  ((C10_security_scan_raw_substring envAllPass "task" "x = retrieval(query)"
      "eval(" "Use of eval is dangerous" 0 (by decide)).1).mpr (by decide)

end Aria
